import Mathlib

/-!
# MemoWeave — verification of the spec against the code

Shallow embedding of the MemoWeave repository:

* `src/frontend/app/page.tsx` — the client page driving an analysis run over a
  server-sent-event (SSE) stream (`handleAnalyze`, `handleFileSelect`,
  `handleRuleSelect`, `canAnalyze`, the `message` / `result` / `error_msg`
  listeners, and the unmount cleanup).
* the backend reasoning modules `events.py` / `character.py`, whose system
  prompts, user-prompt formats and configuration globals are quoted verbatim
  in the repository's prompt fine-tuning guide; the parts of their bodies not
  quoted there are modelled from the spec and marked as such.
* the Pipeline Orchestrator (server-side SSE producer), modelled from the spec.
-/

namespace MemoWeave

/-- The rule selector: `type RuleType = "temporal" | "role_completeness" | null`
(the `null` case is represented as `Option Rule` at use sites). -/
inductive Rule
  | temporal
  | role_completeness
deriving DecidableEq, Repr

/-- `type ViewMode = "file" | "text"` from `page.tsx`. -/
inductive ViewMode
  | file
  | text
deriving DecidableEq, Repr, BEq

/-- `interface UploadedFile` from `page.tsx` (the optional `content` field is
unused by the analysis path). -/
structure UploadedFile where
  id : String
  filename : String
  filepath : String
deriving DecidableEq, Repr

/-- The React state of the `Home` component in `page.tsx`, plus the
`eventSourceRef` modelled as the id of the currently open `EventSource`
(`none` when no stream is open / the stream has been closed). -/
structure ClientState where
  uploadedFiles : List UploadedFile
  selectedFileId : Option String
  selectedRule : Option Rule
  viewMode : ViewMode
  fileContent : String
  inconsistenciesOutput : String
  progressOutput : String
  systemFeedback : String
  pipelineRunning : Bool
  eventSource : Option Nat
deriving DecidableEq, Repr

/-- `const selectedFile = uploadedFiles.find((f) => f.id === selectedFileId)`;
with `selectedFileId === null` the strict comparison is false for every file. -/
def selectedFile (s : ClientState) : Option UploadedFile :=
  match s.selectedFileId with
  | none => none
  | some fid => s.uploadedFiles.find? (fun f => f.id == fid)

/-- `canAnalyze` from `page.tsx`:
`selectedRule !== null && !pipelineRunning && (viewMode === "text" || selectedFile !== null)`. -/
def canAnalyze (s : ClientState) : Bool :=
  s.selectedRule.isSome && !s.pipelineRunning &&
    (s.viewMode == ViewMode.text || (selectedFile s).isSome)

/-- The feedback message shown while an analysis is in flight. -/
def busyMsg : String := "Analysis in progress. Please wait."

/-- `handleFileSelect` from `page.tsx`: rejected with a feedback message while
the pipeline runs; otherwise clears both outputs, resets the rule and selects
the file. -/
def handleFileSelect (s : ClientState) (fileId : String) : ClientState :=
  if s.pipelineRunning then
    { s with systemFeedback := busyMsg }
  else
    { s with inconsistenciesOutput := ""
           , progressOutput := ""
           , selectedRule := none
           , selectedFileId := some fileId }

/-- `handleRuleSelect` from `page.tsx`: rejected with a feedback message while
the pipeline runs; otherwise clears the feedback output and selects the rule. -/
def handleRuleSelect (s : ClientState) (rule : Option Rule) : ClientState :=
  if s.pipelineRunning then
    { s with systemFeedback := busyMsg }
  else
    { s with inconsistenciesOutput := "", selectedRule := rule }

/-- The parameters carried by the `analyze_stream` request URL:
`/analyze_stream?filename=...&rule=...` — one filename and exactly one rule. -/
structure AnalyzeRequest where
  filename : String
  rule : Rule
deriving DecidableEq, Repr

/-- Side effects of `handleAnalyze` on the `EventSource`: closing the previous
stream and opening a new one, in program order. -/
inductive StreamOp
  | closeStream (id : Nat)
  | openStream (id : Nat) (req : AnalyzeRequest)
deriving DecidableEq, Repr

/-- `handleAnalyze` from `page.tsx`. Guard: `if (!selectedFile || !selectedRule)
return;`. Otherwise it sets `pipelineRunning`, initializes the progress output,
clears the feedback output, closes any existing `EventSource`, and opens a new
one on the `analyze_stream` URL carrying the selected filename and rule.
`newId` stands for the identity of the freshly constructed `EventSource`. -/
def handleAnalyze (s : ClientState) (newId : Nat) : ClientState × List StreamOp :=
  match selectedFile s, s.selectedRule with
  | some file, some rule =>
    ({ s with pipelineRunning := true
            , progressOutput := "Initializing analysis for " ++ file.filename ++ "...\n"
            , inconsistenciesOutput := ""
            , eventSource := some newId },
     (match s.eventSource with
      | some old => [StreamOp.closeStream old]
      | none => []) ++ [StreamOp.openStream newId ⟨file.filename, rule⟩])
  | _, _ => (s, [])

/-- The `useEffect` unmount cleanup from `page.tsx`: close the `EventSource`
if one is open. -/
def unmountCleanup (s : ClientState) : ClientState × List StreamOp :=
  match s.eventSource with
  | some old => ({ s with eventSource := none }, [StreamOp.closeStream old])
  | none => (s, [])

/-! ## Backend reasoning modules

`backend/events.py` (temporal consistency) and `backend/character.py`
(role completeness). Their system prompts, user-prompt formats, configuration
globals and temperature are quoted verbatim in the repository's prompt
fine-tuning guide; the surrounding function bodies are modelled from the spec
(§4.8 Prompt Builder, §4.9 Reasoning Client, §6 Reasoning-service boundary). -/

/-- The module-level globals both backend files share:
`OPENROUTER_API_KEY = os.getenv("OPENROUTER_API_KEY")` and
`MODEL_NAME = "gpt-oss-120b:free"`. They are ambient, mutable module state;
`call_reasoning_llm` reads whatever values they hold at call time, so the
embedding passes the current global state in explicitly. -/
structure AmbientConfig where
  OPENROUTER_API_KEY : Option String
  MODEL_NAME : String
deriving DecidableEq, Repr

/-- The value of the `MODEL_NAME` global as initialized at module load. -/
def MODEL_NAME : String := "gpt-oss-120b:free"

/-- `OPENROUTER_URL = "https://openrouter.ai/api/v1/chat/completions"`. -/
def OPENROUTER_URL : String := "https://openrouter.ai/api/v1/chat/completions"

/-- The outbound request to the reasoning service (§6):
`{system_prompt, user_prompt, model_name, temperature}` plus the bearer key,
with the prompts carried as role-tagged chat messages. The floating-point
temperature `0.0` is embedded as the exact rational `0`. -/
structure ReasoningRequest where
  url : String
  api_key : Option String
  model : String
  messages : List (String × String)
  temperature : Rat
deriving DecidableEq, Repr

namespace events

/-- The system prompt of `backend/events.py` `call_reasoning_llm`, quoted
verbatim in the fine-tuning guide (adjacent Python string literals
concatenate; the second line has no trailing newline in the source). -/
def SYSTEM_PROMPT : String :=
  "You are a macro-level story consistency validator.\n" ++
  "Know the whole context first, in case of flashback sequences" ++
  "Detect temporal contradictions or overlapping events.\n" ++
  "Summarize issues per chapter in human-readable paragraphs.\n" ++
  "Do NOT reference event IDs or sentence IDs.\n" ++
  "Do NOT rewrite the story, only report violations."

/-- A row of `temporal_consistency.csv`, the input of the temporal
`build_prompt`. The identifier columns `event_id` / `sentence_id` are carried
by the event memory (spec §3 EventFrame) alongside the projected fields; the
prompt format uses only `chapter_id`, `event_text`, `time` and `time_type`. -/
structure TemporalRow where
  event_id : Nat
  sentence_id : Nat
  chapter_id : Nat
  event_text : String
  time : String
  time_type : String
deriving DecidableEq, Repr

/-- The per-event line of the temporal user prompt, format quoted in the
fine-tuning guide: `- {event_text} (time: {time}, type: {type})`. -/
def format_line (r : TemporalRow) : String :=
  "- " ++ r.event_text ++ " (time: " ++ r.time ++ ", type: " ++ r.time_type ++ ")"

/-- Modelled from the spec: the body of `backend/events.py` `build_prompt` is
not under `src/`; §4.8 requires one line per event grouped under a
`Chapter {id}:` heading, in row order, and the guide gives the line format.
`cur` is the chapter heading already emitted for the preceding row. -/
def build_prompt_go (cur : Option Nat) : List TemporalRow → String
  | [] => ""
  | r :: rs =>
    (if cur = some r.chapter_id then "" else "Chapter " ++ toString r.chapter_id ++ ":\n")
      ++ format_line r ++ "\n" ++ build_prompt_go (some r.chapter_id) rs

/-- Modelled from the spec: `backend/events.py` `build_prompt` — aggregates
events by chapter from `temporal_consistency.csv` into the user prompt. -/
def build_prompt (rows : List TemporalRow) : String :=
  build_prompt_go none rows

/-- Modelled from the spec: `backend/events.py` `call_reasoning_llm` — a
single outbound chat-completion request built from the module globals read at
call time, the fixed system prompt, the user prompt, and `temperature=0.0`
(quoted in the guide as the current setting). -/
def call_reasoning_llm (g : AmbientConfig) (user_prompt : String) : ReasoningRequest :=
  { url := OPENROUTER_URL
  , api_key := g.OPENROUTER_API_KEY
  , model := g.MODEL_NAME
  , messages := [("system", SYSTEM_PROMPT), ("user", user_prompt)]
  , temperature := 0 }

end events

namespace character

/-- The system prompt of `backend/character.py` `call_reasoning_llm`, quoted
verbatim in the fine-tuning guide. -/
def SYSTEM_PROMPT : String :=
  "You are a macro-level story consistency validator.\n" ++
  "Detect which missing characters[actor], tools, or roles during events.\n" ++
  "Some actors could be locations.\n" ++
  "Summarize issues per chapter in human-readable paragraphs.\n" ++
  "Do NOT reference event IDs or sentence IDs.\n" ++
  "Do NOT rewrite the story, only report violations."

/-- A row of `role_completeness.csv`, the input of the role-completeness
`build_prompt`; identifier columns as in `events.TemporalRow`. -/
structure RoleRow where
  event_id : Nat
  sentence_id : Nat
  chapter_id : Nat
  event_text : String
  actor : String
  target : String
  location : String
deriving DecidableEq, Repr

/-- The per-event line of the role-completeness user prompt, format quoted in
the guide: `- {event_text} (actor: {actor}, target: {target}, location: {location})`. -/
def format_line (r : RoleRow) : String :=
  "- " ++ r.event_text ++ " (actor: " ++ r.actor ++ ", target: " ++ r.target ++
    ", location: " ++ r.location ++ ")"

/-- Modelled from the spec: grouping helper of `backend/character.py`
`build_prompt`, as for `events.build_prompt_go`. -/
def build_prompt_go (cur : Option Nat) : List RoleRow → String
  | [] => ""
  | r :: rs =>
    (if cur = some r.chapter_id then "" else "Chapter " ++ toString r.chapter_id ++ ":\n")
      ++ format_line r ++ "\n" ++ build_prompt_go (some r.chapter_id) rs

/-- Modelled from the spec: `backend/character.py` `build_prompt` — aggregates
events by chapter from `role_completeness.csv` into the user prompt. -/
def build_prompt (rows : List RoleRow) : String :=
  build_prompt_go none rows

/-- Modelled from the spec: `backend/character.py` `call_reasoning_llm` —
same shape as the temporal one, with this module's system prompt and
`temperature=0.0`. -/
def call_reasoning_llm (g : AmbientConfig) (user_prompt : String) : ReasoningRequest :=
  { url := OPENROUTER_URL
  , api_key := g.OPENROUTER_API_KEY
  , model := g.MODEL_NAME
  , messages := [("system", SYSTEM_PROMPT), ("user", user_prompt)]
  , temperature := 0 }

end character

/-- Modelled from the spec: the server dispatch on the per-run rule (§6 Rule
selector) — each rule selects its projection view (the CSV the run reads). -/
def rule_view : Rule → String
  | .temporal => "temporal_consistency.csv"
  | .role_completeness => "role_completeness.csv"

/-- Modelled from the spec: each rule selects its fixed system prompt. -/
def rule_system_prompt : Rule → String
  | .temporal => events.SYSTEM_PROMPT
  | .role_completeness => character.SYSTEM_PROMPT

/-- Modelled from the spec: each rule selects its prompt template — the run
builds its user prompt with the builder of the module the rule names. -/
def rule_user_prompt (r : Rule) (trows : List events.TemporalRow)
    (rrows : List character.RoleRow) : String :=
  match r with
  | .temporal => events.build_prompt trows
  | .role_completeness => character.build_prompt rrows

/-- Substring occurrence on character lists (used to state that a prompt never
mentions an identifier such as `event_id`). -/
def hasSub (needle : List Char) : List Char → Bool
  | [] => needle.isEmpty
  | c :: t => needle.isPrefixOf (c :: t) || hasSub needle t

/-- `mentions s frag` — the string `frag` occurs inside `s`. -/
def mentions (s frag : String) : Bool :=
  hasSub frag.data s.data

/-! ## The SSE stream between orchestrator and client

The orchestrator's events, tagged by SSE event name as `page.tsx` listens to
them: the default `message` events (progress lines), the terminal `result`
event (whose JSON body's `feedback` field is carried here directly), the
custom server-sent `error_msg` event, and the browser-level connection
`error` event. -/

inductive SSEEvent
  | message (data : String)
  | result (feedback : String)
  | error_msg (data : String)
  | connError
deriving DecidableEq, Repr

/-- Recognizes the custom server error event. -/
def isErrorEvent : SSEEvent → Bool
  | .error_msg _ => true
  | _ => false

/-- Recognizes the terminal result event. -/
def isResultEvent : SSEEvent → Bool
  | .result _ => true
  | _ => false

/-- Delivery of one SSE event to the listeners registered in `handleAnalyze`.
A closed `EventSource` dispatches no events, so a state without an open
stream is left untouched. Otherwise, from `page.tsx`:
* `onmessage` appends `event.data + "\n"` to the progress output;
* the `result` listener stores `JSON.parse(event.data).feedback` as the
  feedback output, closes the stream and clears `pipelineRunning`;
* the `error_msg` listener appends `"[ERROR] " + event.data + "\n"` to the
  progress output, closes the stream and clears `pipelineRunning`;
* the browser `error` listener closes the (still open) stream and clears
  `pipelineRunning`. -/
def processEvent (s : ClientState) (e : SSEEvent) : ClientState :=
  if s.eventSource.isNone then s
  else
    match e with
    | .message d =>
        { s with progressOutput := s.progressOutput ++ (d ++ "\n") }
    | .result fb =>
        { s with inconsistenciesOutput := fb
               , eventSource := none
               , pipelineRunning := false }
    | .error_msg d =>
        { s with progressOutput := s.progressOutput ++ ("[ERROR] " ++ d ++ "\n")
               , eventSource := none
               , pipelineRunning := false }
    | .connError =>
        { s with eventSource := none, pipelineRunning := false }

/-- Delivery of a whole event sequence, in arrival order. -/
def processEvents (s : ClientState) (es : List SSEEvent) : ClientState :=
  es.foldl processEvent s

/-- The progress lines as the client accumulates them: each arrival appended
once, with a newline, in order. -/
def joinLines : List String → String
  | [] => ""
  | l :: ls => (l ++ "\n") ++ joinLines ls

/-- Modelled from the spec: the Pipeline Orchestrator's emitted event stream
(server code not under `src/`). §4.10/§6/§7: one progress notification per
stage transition, in stage order, then exactly one terminal event — a
`result` on success (`Except.ok`) or a distinct `error_msg` on a fatal error
(`Except.error`), never both, and nothing after the terminal event. -/
def orchestratorStream (progress : List String) (outcome : Except String String) :
    List SSEEvent :=
  progress.map SSEEvent.message ++
    [match outcome with
     | .ok fb => SSEEvent.result fb
     | .error e => SSEEvent.error_msg e]

/-- The `Memo Weave Feedback` panel of `page.tsx` renders
`inconsistenciesOutput || placeholder` through `dangerouslySetInnerHTML`:
the feedback field is injected directly as HTML once non-empty. -/
def renderFeedbackHtml (s : ClientState) : String :=
  if s.inconsistenciesOutput = "" then
    "<span class=\"text-[#9A90B8]\">Detail inconsistencies, story-rule conflicts, and other violations flagged will appear here...</span>"
  else s.inconsistenciesOutput

/-! ## Cancellation model for the orchestrator (spec §5)

Modelled from the spec: the server-side orchestrator is not under `src/`.
§4.10 runs the stages sequentially; §5 requires that on client disconnection
the orchestrator observe it and abort before issuing further external
reasoning calls, while already-issued calls run to completion. -/

/-- The orchestrator's stages, in execution order (§4.10). -/
inductive Stage
  | Segmenting | Tokenizing | Annotating | ConstructingFrames | FillingGaps
  | ExtractingTime | Projecting | BuildingPrompt | Reasoning
deriving DecidableEq, Repr

/-- Only the Reasoning stage issues an external call (§5: the Reasoning
Client's call is the only blocking external operation). -/
def issuesExternalCall : Stage → Bool
  | .Reasoning => true
  | _ => false

/-- Modelled from the spec: the orchestrator loop. `disc i` tells whether the
client's disconnection is observable before executing the stage at index `i`;
the orchestrator checks it before each stage and aborts on observing it,
otherwise executes the stage. The result collects the indices at which an
external reasoning call was issued; issued calls are never revoked (the model
has no revocation operation), matching §5's 'allowed to complete or time
out'. -/
def orch_calls (disc : Nat → Bool) : Nat → List Stage → List Nat
  | _, [] => []
  | i, st :: rest =>
    if disc i then []
    else (if issuesExternalCall st then [i] else []) ++ orch_calls disc (i + 1) rest

/-- The `result` listener of `page.tsx` registers exactly one handler per run;
`openedReqs` extracts, in order, the analyze requests opened by a list of
stream operations. -/
def openedReqs : List StreamOp → List AnalyzeRequest
  | [] => []
  | StreamOp.openStream _ req :: rest => req :: openedReqs rest
  | StreamOp.closeStream _ :: rest => openedReqs rest

/-! Concrete sample values used to evaluate the model on closed inputs. -/

/-- A sample uploaded file. -/
def sampleFile : UploadedFile := ⟨"a.txt", "a.txt", "a.txt"⟩

/-- A client state with an analysis in flight (stream `0` open). -/
def sampleRunning : ClientState :=
  ⟨[], none, none, ViewMode.file, "", "", "", "", true, some 0⟩

/-- An idle client state with a file and the temporal rule selected and a
stale stream `3` still open. -/
def sampleReady : ClientState :=
  ⟨[sampleFile], some "a.txt", some Rule.temporal, ViewMode.file, "", "", "", "", false, some 3⟩

/-- An idle text-mode client state with a rule selected but no file. -/
def sampleTextNoFile : ClientState :=
  ⟨[], none, some Rule.temporal, ViewMode.text, "", "", "", "", false, none⟩

/-! ## Helper lemmas on event delivery -/

theorem processEvent_closed (s : ClientState) (e : SSEEvent) (h : s.eventSource = none) :
    processEvent s e = s := by
  simp [processEvent, h]

theorem processEvents_closed (s : ClientState) (h : s.eventSource = none) :
    ∀ es, processEvents s es = s
  | [] => rfl
  | e :: es => by
    show processEvents (processEvent s e) es = s
    rw [processEvent_closed s e h]
    exact processEvents_closed s h es

theorem processEvent_message (s : ClientState) (m : String)
    (h : s.eventSource.isSome) :
    processEvent s (SSEEvent.message m) =
      { s with progressOutput := s.progressOutput ++ (m ++ "\n") } := by
  obtain ⟨v, hv⟩ := Option.isSome_iff_exists.mp h
  simp [processEvent, hv]

theorem processEvent_result (s : ClientState) (fb : String)
    (h : s.eventSource.isSome) :
    processEvent s (SSEEvent.result fb) =
      { s with inconsistenciesOutput := fb, eventSource := none
             , pipelineRunning := false } := by
  obtain ⟨v, hv⟩ := Option.isSome_iff_exists.mp h
  simp [processEvent, hv]

theorem processEvent_error_msg (s : ClientState) (d : String)
    (h : s.eventSource.isSome) :
    processEvent s (SSEEvent.error_msg d) =
      { s with progressOutput := s.progressOutput ++ ("[ERROR] " ++ d ++ "\n")
             , eventSource := none, pipelineRunning := false } := by
  obtain ⟨v, hv⟩ := Option.isSome_iff_exists.mp h
  simp [processEvent, hv]

theorem processEvents_messages :
    ∀ (ms : List String) (s : ClientState), s.eventSource.isSome →
      processEvents s (ms.map SSEEvent.message) =
        { s with progressOutput := s.progressOutput ++ joinLines ms }
  | [], s, _ => by
    simp [processEvents, joinLines, String.append_empty]
  | m :: ms, s, h => by
    show processEvents (processEvent s (SSEEvent.message m)) (ms.map SSEEvent.message) = _
    rw [processEvent_message s m h]
    rw [processEvents_messages ms _ (by simpa using h)]
    simp [joinLines, String.append_assoc]

theorem processEvents_append (s : ClientState) (es₁ es₂ : List SSEEvent) :
    processEvents s (es₁ ++ es₂) = processEvents (processEvents s es₁) es₂ := by
  simp [processEvents, List.foldl_append]

theorem countP_messages_isError (ms : List String) :
    (ms.map SSEEvent.message).countP isErrorEvent = 0 := by
  induction ms with
  | nil => rfl
  | cons m ms ih => simp [List.countP_cons, isErrorEvent, ih]

theorem countP_messages_isResult (ms : List String) :
    (ms.map SSEEvent.message).countP isResultEvent = 0 := by
  induction ms with
  | nil => rfl
  | cons m ms ih => simp [List.countP_cons, isResultEvent, ih]

/-! ## Helper lemmas on the prompt builders and the orchestrator loop -/

theorem events_build_prompt_go_ids :
    ∀ (rows : List events.TemporalRow) (cur : Option Nat) (f g : Nat → Nat),
      events.build_prompt_go cur
          (rows.map fun r => { r with event_id := f r.event_id
                                    , sentence_id := g r.sentence_id }) =
        events.build_prompt_go cur rows
  | [], _, _, _ => rfl
  | r :: rs, cur, f, g => by
    simp [events.build_prompt_go, events.format_line,
      events_build_prompt_go_ids rs _ f g]

theorem character_build_prompt_go_ids :
    ∀ (rows : List character.RoleRow) (cur : Option Nat) (f g : Nat → Nat),
      character.build_prompt_go cur
          (rows.map fun r => { r with event_id := f r.event_id
                                    , sentence_id := g r.sentence_id }) =
        character.build_prompt_go cur rows
  | [], _, _, _ => rfl
  | r :: rs, cur, f, g => by
    simp [character.build_prompt_go, character.format_line,
      character_build_prompt_go_ids rs _ f g]

theorem orch_calls_not_disc (disc : Nat → Bool) :
    ∀ (stages : List Stage) (n i : Nat), i ∈ orch_calls disc n stages → disc i = false
  | [], n, i => by simp [orch_calls]
  | st :: rest, n, i => by
    intro hi
    rw [orch_calls] at hi
    by_cases hd : disc n = true
    · simp [hd] at hi
    · rw [if_neg (by simp [hd])] at hi
      rcases List.mem_append.mp hi with h1 | h2
      · by_cases hext : issuesExternalCall st = true
        · simp only [if_pos hext, List.mem_singleton] at h1
          subst h1
          simpa using hd
        · simp [hext] at h1
      · exact orch_calls_not_disc disc rest (n + 1) i h2

/-! ## Claims -/

/-- C1: a run that hits a fatal pipeline error terminates with exactly one
error entry — an `error_msg` payload, a tag distinct from the progress
`message` events and from the `result` event — the event stream closes, and
no result entry is delivered afterward (the feedback output is untouched and
the closed stream absorbs any further event). -/
theorem C1_fatal_error_terminal (s : ClientState) (ps : List String) (e : String)
    (h : s.eventSource.isSome) :
    (orchestratorStream ps (Except.error e)).countP isErrorEvent = 1 ∧
    (orchestratorStream ps (Except.error e)).countP isResultEvent = 0 ∧
    (processEvents s (orchestratorStream ps (Except.error e))).eventSource = none ∧
    (processEvents s (orchestratorStream ps (Except.error e))).pipelineRunning = false ∧
    (processEvents s (orchestratorStream ps (Except.error e))).progressOutput =
      s.progressOutput ++ joinLines ps ++ ("[ERROR] " ++ e ++ "\n") ∧
    (processEvents s (orchestratorStream ps (Except.error e))).inconsistenciesOutput =
      s.inconsistenciesOutput ∧
    (∀ rest, processEvents (processEvents s (orchestratorStream ps (Except.error e))) rest =
      processEvents s (orchestratorStream ps (Except.error e))) := by
  have hstream : orchestratorStream ps (Except.error e) =
      ps.map SSEEvent.message ++ [SSEEvent.error_msg e] := rfl
  have hmsg := processEvents_messages ps s h
  have hopen1 : (processEvents s (ps.map SSEEvent.message)).eventSource.isSome := by
    rw [hmsg]; exact h
  have hrun : processEvents s (orchestratorStream ps (Except.error e)) =
      { s with progressOutput :=
                 s.progressOutput ++ joinLines ps ++ ("[ERROR] " ++ e ++ "\n")
             , eventSource := none, pipelineRunning := false } := by
    rw [hstream, processEvents_append]
    show processEvent (processEvents s (ps.map SSEEvent.message)) (SSEEvent.error_msg e) = _
    rw [processEvent_error_msg _ _ hopen1, hmsg]
  refine ⟨?_, ?_, ?_, ?_, ?_, ?_, ?_⟩
  · rw [hstream, List.countP_append, countP_messages_isError]; rfl
  · rw [hstream, List.countP_append, countP_messages_isResult]; rfl
  · rw [hrun]
  · rw [hrun]
  · rw [hrun]
  · rw [hrun]
  · intro rest
    exact processEvents_closed _ (by rw [hrun]) rest

/-- Witness for C1 at a concrete run. -/
theorem C1_fatal_error_terminal_witness :
    (orchestratorStream ["Segmenting Chapters..."]
        (Except.error "Reasoning service returned HTTP 500")).countP isErrorEvent = 1 ∧
    (processEvents sampleRunning
        (orchestratorStream ["Segmenting Chapters..."]
          (Except.error "Reasoning service returned HTTP 500"))).eventSource = none ∧
    (processEvents sampleRunning
        (orchestratorStream ["Segmenting Chapters..."]
          (Except.error "Reasoning service returned HTTP 500"))).inconsistenciesOutput = "" := by
  have hthm := C1_fatal_error_terminal sampleRunning ["Segmenting Chapters..."]
    "Reasoning service returned HTTP 500" rfl
  exact ⟨hthm.1, hthm.2.2.1, hthm.2.2.2.2.2.1⟩

/-- C2: progress notifications are appended by the single `onmessage` listener
incrementally and in arrival order, exactly once each: delivering the list of
progress lines yields the progress output extended by exactly those lines in
order, leaves the other outputs untouched, and for any split of the sequence
the state after the first part already shows exactly the first part's lines
(delivery is not buffered to the end). -/
theorem C2_progress_order (s : ClientState) (ms : List String)
    (h : s.eventSource.isSome) :
    (processEvents s (ms.map SSEEvent.message)).progressOutput =
      s.progressOutput ++ joinLines ms ∧
    (processEvents s (ms.map SSEEvent.message)).inconsistenciesOutput =
      s.inconsistenciesOutput ∧
    (processEvents s (ms.map SSEEvent.message)).eventSource = s.eventSource ∧
    (processEvents s (ms.map SSEEvent.message)).pipelineRunning = s.pipelineRunning ∧
    ∀ ms₁ ms₂, ms = ms₁ ++ ms₂ →
      processEvents s (ms.map SSEEvent.message) =
        processEvents (processEvents s (ms₁.map SSEEvent.message))
          (ms₂.map SSEEvent.message) ∧
      (processEvents s (ms₁.map SSEEvent.message)).progressOutput =
        s.progressOutput ++ joinLines ms₁ := by
  have hmsg := processEvents_messages ms s h
  refine ⟨by rw [hmsg], by rw [hmsg], by rw [hmsg], by rw [hmsg], ?_⟩
  intro ms₁ ms₂ hsplit
  constructor
  · rw [hsplit, List.map_append, processEvents_append]
  · rw [processEvents_messages ms₁ s h]

/-- Witness for C2 at a concrete run. -/
theorem C2_progress_order_witness :
    (processEvents sampleRunning
        (["Segmenting Chapters...", "Tokenizing Sentences..."].map SSEEvent.message)).progressOutput =
      sampleRunning.progressOutput ++
        joinLines ["Segmenting Chapters...", "Tokenizing Sentences..."] :=
  (C2_progress_order sampleRunning
    ["Segmenting Chapters...", "Tokenizing Sentences..."] rfl).1

/-- C7: a successful run ends in exactly one terminal `result` payload; the
client consumes it — stores its `feedback` field, closes the stream (so any
later payload is ignored) — and the feedback panel renders that field
directly as HTML. -/
theorem C7_single_result (s : ClientState) (ps : List String) (fb : String)
    (h : s.eventSource.isSome) :
    (orchestratorStream ps (Except.ok fb)).countP isResultEvent = 1 ∧
    (orchestratorStream ps (Except.ok fb)).countP isErrorEvent = 0 ∧
    (processEvents s (orchestratorStream ps (Except.ok fb))).inconsistenciesOutput = fb ∧
    (processEvents s (orchestratorStream ps (Except.ok fb))).eventSource = none ∧
    (processEvents s (orchestratorStream ps (Except.ok fb))).pipelineRunning = false ∧
    (fb ≠ "" →
      renderFeedbackHtml (processEvents s (orchestratorStream ps (Except.ok fb))) = fb) ∧
    (∀ rest, processEvents (processEvents s (orchestratorStream ps (Except.ok fb))) rest =
      processEvents s (orchestratorStream ps (Except.ok fb))) := by
  have hstream : orchestratorStream ps (Except.ok fb) =
      ps.map SSEEvent.message ++ [SSEEvent.result fb] := rfl
  have hmsg := processEvents_messages ps s h
  have hopen1 : (processEvents s (ps.map SSEEvent.message)).eventSource.isSome := by
    rw [hmsg]; exact h
  have hrun : processEvents s (orchestratorStream ps (Except.ok fb)) =
      { s with progressOutput := s.progressOutput ++ joinLines ps
             , inconsistenciesOutput := fb
             , eventSource := none, pipelineRunning := false } := by
    rw [hstream, processEvents_append]
    show processEvent (processEvents s (ps.map SSEEvent.message)) (SSEEvent.result fb) = _
    rw [processEvent_result _ _ hopen1, hmsg]
  refine ⟨?_, ?_, ?_, ?_, ?_, ?_, ?_⟩
  · rw [hstream, List.countP_append, countP_messages_isResult]; rfl
  · rw [hstream, List.countP_append, countP_messages_isError]; rfl
  · rw [hrun]
  · rw [hrun]
  · rw [hrun]
  · intro hfb
    rw [hrun]
    simp [renderFeedbackHtml, hfb]
  · intro rest
    exact processEvents_closed _ (by rw [hrun]) rest

/-- Witness for C7 at a concrete run. -/
theorem C7_single_result_witness :
    (processEvents sampleRunning
        (orchestratorStream ["Reasoning..."]
          (Except.ok "<b>Temporal Consistency Analysis:</b>"))).inconsistenciesOutput =
      "<b>Temporal Consistency Analysis:</b>" ∧
    renderFeedbackHtml (processEvents sampleRunning
        (orchestratorStream ["Reasoning..."]
          (Except.ok "<b>Temporal Consistency Analysis:</b>"))) =
      "<b>Temporal Consistency Analysis:</b>" := by
  have hthm := C7_single_result sampleRunning ["Reasoning..."]
    "<b>Temporal Consistency Analysis:</b>" rfl
  exact ⟨hthm.2.2.1, hthm.2.2.2.2.2.1 (by decide)⟩

set_option maxRecDepth 8000

/-- C3: the prompts sent to the reasoning service never reference an
`event_id` or `sentence_id`, enforced by the shape of the prompt builders:
both user-prompt builders are invariant under arbitrary rewriting of the
`event_id` / `sentence_id` columns of their input rows (the built prompt does
not depend on those columns at all), and neither fixed system prompt mentions
the identifiers. -/
theorem C3_no_ids_in_prompts :
    (∀ (rows : List events.TemporalRow) (f g : Nat → Nat),
      events.build_prompt
          (rows.map fun r => { r with event_id := f r.event_id
                                    , sentence_id := g r.sentence_id }) =
        events.build_prompt rows) ∧
    (∀ (rows : List character.RoleRow) (f g : Nat → Nat),
      character.build_prompt
          (rows.map fun r => { r with event_id := f r.event_id
                                    , sentence_id := g r.sentence_id }) =
        character.build_prompt rows) ∧
    mentions events.SYSTEM_PROMPT "event_id" = false ∧
    mentions events.SYSTEM_PROMPT "sentence_id" = false ∧
    mentions character.SYSTEM_PROMPT "event_id" = false ∧
    mentions character.SYSTEM_PROMPT "sentence_id" = false := by
  refine ⟨?_, ?_, by decide, by decide, by decide, by decide⟩
  · intro rows f g
    exact events_build_prompt_go_ids rows none f g
  · intro rows f g
    exact character_build_prompt_go_ids rows none f g

/-- Counterexample for C4: the outbound request of `call_reasoning_llm` is
*not* independent of the ambient module globals at call time — two calls with
the identical user prompt but different ambient `MODEL_NAME` values produce
different requests, so the configuration is read from ambient process state
at call time rather than being a value fixed at client construction. -/
theorem C4_ambient_config_counterexample :
    events.call_reasoning_llm ⟨some "key", "gpt-oss-120b:free"⟩ "prompt" ≠
      events.call_reasoning_llm ⟨some "key", "another-model"⟩ "prompt" := by
  intro hcontra
  have hmodel := congrArg ReasoningRequest.model hcontra
  simp [events.call_reasoning_llm] at hmodel

/-- C4 (amended): the Reasoning Client's configuration lives in module-level
globals (`OPENROUTER_API_KEY` read from the environment into module state,
`MODEL_NAME` a module global) which `call_reasoning_llm` reads at call time —
every outbound request carries exactly the ambient global values current at
the call, with the temperature hard-coded to `0`. -/
theorem C4_config_read_at_call_time (g : AmbientConfig) (u : String) :
    (events.call_reasoning_llm g u).model = g.MODEL_NAME ∧
    (events.call_reasoning_llm g u).api_key = g.OPENROUTER_API_KEY ∧
    (character.call_reasoning_llm g u).model = g.MODEL_NAME ∧
    (character.call_reasoning_llm g u).api_key = g.OPENROUTER_API_KEY ∧
    (events.call_reasoning_llm g u).temperature = 0 ∧
    (character.call_reasoning_llm g u).temperature = 0 :=
  ⟨rfl, rfl, rfl, rfl, rfl, rfl⟩

/-- C5: every outbound reasoning request is built with temperature `0`, and
two calls with identical prompts under the same module globals produce
identical request parameters (determinism of the call). -/
theorem C5_temperature_zero_deterministic :
    (∀ (g : AmbientConfig) (u : String),
      (events.call_reasoning_llm g u).temperature = 0) ∧
    (∀ (g : AmbientConfig) (u : String),
      (character.call_reasoning_llm g u).temperature = 0) ∧
    (∀ (g : AmbientConfig) (u₁ u₂ : String), u₁ = u₂ →
      events.call_reasoning_llm g u₁ = events.call_reasoning_llm g u₂) ∧
    (∀ (g : AmbientConfig) (u₁ u₂ : String), u₁ = u₂ →
      character.call_reasoning_llm g u₁ = character.call_reasoning_llm g u₂) :=
  ⟨fun _ _ => rfl, fun _ _ => rfl,
   fun _ _ _ hu => by rw [hu], fun _ _ _ hu => by rw [hu]⟩

/-- Witness for C5 at a concrete configuration and prompt. -/
theorem C5_temperature_zero_deterministic_witness :
    (events.call_reasoning_llm ⟨some "key", MODEL_NAME⟩ "Chapter 1:").temperature = 0 ∧
    events.call_reasoning_llm ⟨some "key", MODEL_NAME⟩ "Chapter 1:" =
      events.call_reasoning_llm ⟨some "key", MODEL_NAME⟩ "Chapter 1:" :=
  ⟨C5_temperature_zero_deterministic.1 ⟨some "key", MODEL_NAME⟩ "Chapter 1:",
   C5_temperature_zero_deterministic.2.2.1 ⟨some "key", MODEL_NAME⟩
     "Chapter 1:" "Chapter 1:" rfl⟩

/-- C6: every pipeline run is parameterized by exactly one rule out of the
two-valued set `{temporal, role_completeness}`: the rule type is exhaustive,
the single selected rule determines the projection view, the system prompt
and the prompt template of the run (and the two rules select genuinely
different artifacts), and starting a run opens exactly one stream request
carrying exactly the selected rule. -/
theorem C6_one_rule_per_run :
    (∀ r : Rule, r = Rule.temporal ∨ r = Rule.role_completeness) ∧
    rule_system_prompt Rule.temporal = events.SYSTEM_PROMPT ∧
    rule_system_prompt Rule.role_completeness = character.SYSTEM_PROMPT ∧
    rule_view Rule.temporal ≠ rule_view Rule.role_completeness ∧
    rule_system_prompt Rule.temporal ≠ rule_system_prompt Rule.role_completeness ∧
    (∀ (trows : List events.TemporalRow) (rrows : List character.RoleRow),
      rule_user_prompt Rule.temporal trows rrows = events.build_prompt trows) ∧
    (∀ (trows : List events.TemporalRow) (rrows : List character.RoleRow),
      rule_user_prompt Rule.role_completeness trows rrows = character.build_prompt rrows) ∧
    (∀ (s : ClientState) (n : Nat) (file : UploadedFile) (r : Rule),
      selectedFile s = some file → s.selectedRule = some r →
      openedReqs (handleAnalyze s n).2 = [⟨file.filename, r⟩]) := by
  refine ⟨?_, rfl, rfl, by decide, by decide, fun _ _ => rfl, fun _ _ => rfl, ?_⟩
  · intro r
    cases r
    · exact Or.inl rfl
    · exact Or.inr rfl
  · intro s n file r hsel hrule
    simp only [handleAnalyze, hsel, hrule]
    cases s.eventSource <;> simp [openedReqs]

/-- Witness for C6 at a concrete ready state. -/
theorem C6_one_rule_per_run_witness :
    openedReqs (handleAnalyze sampleReady 7).2 = [⟨"a.txt", Rule.temporal⟩] :=
  C6_one_rule_per_run.2.2.2.2.2.2.2 sampleReady 7 sampleFile Rule.temporal rfl rfl

/-- C8: once the requesting side's disconnection is observable (at some stage
index `k`, and it stays observable afterwards), the orchestrator issues no
further external reasoning call: every issued call happened while the
connection was still observed alive, strictly before `k`; the model offers no
revocation of issued calls, matching that already-issued calls complete or
time out. -/
theorem C8_no_calls_after_disconnect (disc : Nat → Bool) (stages : List Stage)
    (k : Nat) (hmono : ∀ i j, i ≤ j → disc i = true → disc j = true)
    (hk : disc k = true) :
    ∀ i ∈ orch_calls disc 0 stages, disc i = false ∧ i < k := by
  intro i hi
  have hnd := orch_calls_not_disc disc stages 0 i hi
  refine ⟨hnd, ?_⟩
  by_contra hlt
  push_neg at hlt
  have hdi := hmono k i hlt hk
  rw [hnd] at hdi
  exact Bool.false_ne_true hdi

/-- Witness for C8 at a concrete run: disconnection observable from index 2,
the reasoning call issued at index 1 was before it. -/
theorem C8_no_calls_after_disconnect_witness :
    decide (2 ≤ 1) = false ∧ 1 < 2 :=
  C8_no_calls_after_disconnect (fun n => decide (2 ≤ n))
    [Stage.Segmenting, Stage.Reasoning] 2
    (by
      intro i j hij hi
      simp only [decide_eq_true_eq] at hi ⊢
      omega)
    (by decide) 1 (by decide)

/-- C9: the client keeps at most one analysis in flight — while
`pipelineRunning` is true, selecting a file or a rule only shows the busy
feedback message and leaves the whole state (in particular the selection)
otherwise unchanged, and the Analyze control is disabled (`canAnalyze` is
false); and starting a new analysis closes the previously open event stream
before opening the new one. -/
theorem C9_at_most_one_in_flight (s : ClientState) (fid : String) (r : Option Rule)
    (n old : Nat) (file : UploadedFile) (rl : Rule) :
    (s.pipelineRunning = true →
      handleFileSelect s fid = { s with systemFeedback := busyMsg } ∧
      handleRuleSelect s r = { s with systemFeedback := busyMsg } ∧
      canAnalyze s = false) ∧
    (s.eventSource = some old → selectedFile s = some file →
      s.selectedRule = some rl →
      (handleAnalyze s n).2 =
        [StreamOp.closeStream old, StreamOp.openStream n ⟨file.filename, rl⟩]) := by
  constructor
  · intro hrun
    refine ⟨?_, ?_, ?_⟩
    · simp [handleFileSelect, hrun]
    · simp [handleRuleSelect, hrun]
    · simp [canAnalyze, hrun]
  · intro hes hsel hrl
    simp [handleAnalyze, hsel, hrl, hes]

/-- Witness for C9 at concrete busy and ready states. -/
theorem C9_at_most_one_in_flight_witness :
    canAnalyze sampleRunning = false ∧
    (handleAnalyze sampleReady 5).2 =
      [StreamOp.closeStream 3, StreamOp.openStream 5 ⟨"a.txt", Rule.temporal⟩] :=
  ⟨((C9_at_most_one_in_flight sampleRunning "f" none 0 0 sampleFile
      Rule.temporal).1 rfl).2.2,
   (C9_at_most_one_in_flight sampleReady "f" none 5 3 sampleFile
      Rule.temporal).2 rfl rfl rfl⟩

/-- C10: in a text-mode state with a rule selected, no pipeline running and no
file selected, the Analyze control is enabled (`canAnalyze` is true) yet the
analyze handler is a no-op — its `!selectedFile` guard returns before setting
`pipelineRunning`, touching any output, or opening a stream, so the state is
unchanged and no stream operation is emitted. -/
theorem C10_text_mode_enabled_noop (s : ClientState) (n : Nat)
    (hvm : s.viewMode = ViewMode.text) (hr : s.selectedRule.isSome)
    (hpr : s.pipelineRunning = false) (hsel : selectedFile s = none) :
    canAnalyze s = true ∧ handleAnalyze s n = (s, []) := by
  constructor
  · simp [canAnalyze, hvm, hpr, hr]
    exact Or.inl rfl
  · simp [handleAnalyze, hsel]

/-- Witness for C10 at a concrete text-mode state. -/
theorem C10_text_mode_enabled_noop_witness :
    canAnalyze sampleTextNoFile = true ∧
    handleAnalyze sampleTextNoFile 0 = (sampleTextNoFile, []) :=
  C10_text_mode_enabled_noop sampleTextNoFile 0 rfl rfl rfl rfl

end MemoWeave
